import Mathlib

/-!
Verification of the HSD-ES bug status transition analyzer
(`fetch_hsdes-api_data.py`).  The Python source is shallowly embedded:
strings are `String`, timestamps are seconds (`Nat`) obtained by a model of
`datetime.strptime('%Y-%m-%d %H:%M:%S')`, Python floats coming from
duration arithmetic are `ℚ`, and each `analyze_*` routine becomes a pure
function from article lists to bucket tables.
-/

namespace Hsdes

/-- ASCII lower-casing of one character (model of `str.lower()` on the
ASCII data this program handles). -/
def toLowerC (c : Char) : Char :=
  if 'A' ≤ c ∧ c ≤ 'Z' then Char.ofNat (c.toNat + 32) else c

/-- ASCII upper-casing of one character (model of `str.upper()`). -/
def toUpperC (c : Char) : Char :=
  if 'a' ≤ c ∧ c ≤ 'z' then Char.ofNat (c.toNat - 32) else c

/-- `str.lower()` on ASCII strings. -/
def lowerStr (s : String) : String := ⟨s.data.map toLowerC⟩

/-- `str.upper()` on ASCII strings. -/
def upperStr (s : String) : String := ⟨s.data.map toUpperC⟩

/-- Python whitespace characters relevant to `str.strip()` and `\s`. -/
def isSpaceC (c : Char) : Bool :=
  c == ' ' || c == '\t' || c == '\n' || c == '\r'

/-- ASCII decimal digit test (`\d`, and `str.isdigit()` on ASCII). -/
def isDigitC (c : Char) : Bool := '0' ≤ c && c ≤ '9'

/-- `str.strip()`: drop leading and trailing whitespace. -/
def stripStr (s : String) : String :=
  ⟨((s.data.dropWhile isSpaceC).reverse.dropWhile isSpaceC).reverse⟩

/-- Substring containment on character lists (`needle in haystack`). -/
def containsSubL (needle : List Char) : List Char → Bool
  | [] => needle.isEmpty
  | c :: rest => needle.isPrefixOf (c :: rest) || containsSubL needle rest

/-- Python's `needle in haystack` on strings. -/
def containsSub (needle hay : String) : Bool := containsSubL needle.data hay.data

/-- Value of a list of decimal digits. -/
def digitsToNat (l : List Char) : Nat :=
  l.foldl (fun acc c => acc * 10 + (c.toNat - '0'.toNat)) 0

/-- Model of `re.search(r'(\d+)\s*UNIT', s)` (and of the `\s+` variant when
`reqSpace` is true), returning the captured integer.  The regex engine
scans for the leftmost run of digits that is followed by (at least one,
when `reqSpace`) whitespace and then the literal `unit`; the captured
group is the whole digit run. -/
def findNumBefore (reqSpace : Bool) (unit : List Char) : List Char → Option Nat
  | [] => none
  | c :: rest =>
    if isDigitC c then
      let digs := c :: rest.takeWhile isDigitC
      let afterDigs := rest.dropWhile isDigitC
      let ws := afterDigs.takeWhile isSpaceC
      let afterWs := afterDigs.dropWhile isSpaceC
      if (!reqSpace || !ws.isEmpty) && unit.isPrefixOf afterWs then
        some (digitsToNat digs)
      else
        findNumBefore reqSpace unit rest
    else
      findNumBefore reqSpace unit rest

/-- First definition of `parse_time_spent_to_hours` (source lines 51-73):
`< 1 Hour` yields 1.0, and the unit regexes use `\s*` (no whitespace
required between the count and the unit). -/
def parse_time_spent_to_hours_v1 (time_str : String) : ℚ :=
  if time_str = "" ∨ stripStr time_str = "" then 0
  else if containsSub "<" time_str ∧ containsSub "hour" (lowerStr time_str) then 1
  else
    let t := lowerStr (stripStr time_str)
    let dayPart : ℚ :=
      match findNumBefore false "day".data t.data with
      | some n => (n : ℚ) * 24
      | none => 0
    let hourPart : ℚ :=
      match findNumBefore false "hour".data t.data with
      | some n => (n : ℚ)
      | none => 0
    dayPart + hourPart

/-- Second definition of `parse_time_spent_to_hours` (source lines 305-340),
the one in effect for the analyses since it is defined later in the module:
`< 1 hour` yields 0.5, and the unit regexes use `\s+` (at least one
whitespace character between the count and the unit). -/
def parse_time_spent_to_hours (time_str : String) : ℚ :=
  if time_str = "" then 0
  else
    let t := lowerStr (stripStr time_str)
    if containsSub "< 1 hour" t then 1/2
    else
      let dayPart : ℚ :=
        if containsSub "day" t then
          match findNumBefore true "day".data t.data with
          | some n => (n : ℚ) * 24
          | none => 0
        else 0
      let hourPart : ℚ :=
        if containsSub "hour" t then
          match findNumBefore true "hour".data t.data with
          | some n => (n : ℚ)
          | none => 0
        else 0
      dayPart + hourPart

/-! ### Timestamp parsing (`parse_date`, source lines 1329-1343)

`parse_date` drops everything from the first `'.'` (discarding fractional
seconds) and then applies `datetime.strptime('%Y-%m-%d %H:%M:%S')`.  We
model the resulting `datetime` as an absolute number of seconds from
`0001-01-01 00:00:00` using the proleptic Gregorian calendar (the same
calendar Python's `datetime` uses), so subtraction of two parsed dates
agrees with `datetime` subtraction in seconds. -/

/-- Reads one or (greedily) two decimal digits; returns value and rest. -/
def readDigits2 : List Char → Option (Nat × List Char)
  | [] => none
  | c1 :: rest =>
    if isDigitC c1 then
      match rest with
      | c2 :: rest2 =>
        if isDigitC c2 then
          some ((c1.toNat - '0'.toNat) * 10 + (c2.toNat - '0'.toNat), rest2)
        else some (c1.toNat - '0'.toNat, rest)
      | [] => some (c1.toNat - '0'.toNat, [])
    else none

/-- Reads exactly four decimal digits (the `%Y` field). -/
def readDigits4 : List Char → Option (Nat × List Char)
  | c1 :: c2 :: c3 :: c4 :: rest =>
    if isDigitC c1 && isDigitC c2 && isDigitC c3 && isDigitC c4 then
      some (digitsToNat [c1, c2, c3, c4], rest)
    else none
  | _ => none

/-- Expects a literal separator character. -/
def expectChar (ch : Char) : List Char → Option (List Char)
  | [] => none
  | c :: rest => if c = ch then some rest else none

/-- Gregorian leap-year test. -/
def isLeap (y : Nat) : Bool := y % 4 == 0 && (y % 100 != 0 || y % 400 == 0)

/-- Number of days in a month. -/
def daysInMonth (y m : Nat) : Nat :=
  if m = 2 then (if isLeap y then 29 else 28)
  else if m = 4 ∨ m = 6 ∨ m = 9 ∨ m = 11 then 30
  else 31

/-- Days in the year strictly before month `m`. -/
def daysBeforeMonth (y m : Nat) : Nat :=
  let base :=
    match m with
    | 1 => 0 | 2 => 31 | 3 => 59 | 4 => 90 | 5 => 120 | 6 => 151
    | 7 => 181 | 8 => 212 | 9 => 243 | 10 => 273 | 11 => 304 | _ => 334
  base + (if 2 < m ∧ isLeap y then 1 else 0)

/-- Days from 0001-01-01 to the given civil date (`datetime.toordinal - 1`). -/
def toOrdinal (y m d : Nat) : Nat :=
  (365 * (y - 1) + (y - 1) / 4 + (y - 1) / 400 + daysBeforeMonth y m + (d - 1))
    - (y - 1) / 100

/-- Absolute seconds of a `datetime` value. -/
def toSecs (y m d hh mm ss : Nat) : Nat :=
  toOrdinal y m d * 86400 + hh * 3600 + mm * 60 + ss

/-- `strptime('%Y-%m-%d %H:%M:%S')` on the fraction-stripped string:
four-digit year (`datetime` requires year ≥ 1), month 1-12, day valid for
the month, hour ≤ 23, minute and second ≤ 59, and no trailing characters.
Returns the absolute seconds of the parsed instant. -/
def parseDateTimeChars (l : List Char) : Option Nat := do
  let (y, r1) ← readDigits4 l
  let r2 ← expectChar '-' r1
  let (m, r3) ← readDigits2 r2
  let r4 ← expectChar '-' r3
  let (d, r5) ← readDigits2 r4
  let r6 ← expectChar ' ' r5
  let (hh, r7) ← readDigits2 r6
  let r8 ← expectChar ':' r7
  let (mm, r9) ← readDigits2 r8
  let r10 ← expectChar ':' r9
  let (ss, r11) ← readDigits2 r10
  if r11 = [] ∧ 1 ≤ y ∧ 1 ≤ m ∧ m ≤ 12 ∧ 1 ≤ d ∧ d ≤ daysInMonth y m ∧
      hh ≤ 23 ∧ mm ≤ 59 ∧ ss ≤ 59 then
    some (toSecs y m d hh mm ss)
  else none

/-- `parse_date` (source lines 1329-1343): empty string yields `None`,
the part before the first `'.'` is parsed, any parse failure yields
`None`. -/
def parse_date (date_str : String) : Option Nat :=
  if date_str = "" then none
  else parseDateTimeChars (date_str.data.takeWhile (fun c => c ≠ '.'))

/-! ### Data model

An article record as consumed by the analyses: `id`, current `status`,
`priority`, and the list of transitions, each with `status`,
`updated_date` and `duration` (absent keys are modelled as `""`, matching
`dict.get(k, '')`). -/

structure Trans where
  status : String
  updated_date : String
  duration : String
deriving DecidableEq, Repr

structure Article where
  id : String
  status : String
  priority : String
  transitions : List Trans
deriving DecidableEq, Repr

/-! ### Timeline normalization

Each date-based analysis builds `sorted_transitions`: the pairs
`(parse_date(t), t)` for transitions whose date parses, sorted ascending
by date with Python's stable `list.sort`.  We model the stable sort by
straight insertion (any stable sort by the same key computes the same
list). -/

/-- Inserts `x` before the first element whose key is `≥` the key of `x`
(so an element equal in key that was earlier in the input stays earlier:
stability). -/
def insertByDate (x : Nat × Trans) : List (Nat × Trans) → List (Nat × Trans)
  | [] => [x]
  | y :: ys => if y.1 < x.1 then y :: insertByDate x ys else x :: y :: ys

/-- Stable ascending sort by the parsed date. -/
def sortByDate : List (Nat × Trans) → List (Nat × Trans)
  | [] => []
  | x :: xs => insertByDate x (sortByDate xs)

/-- The `sorted_transitions` list built by the date-based analyses
(e.g. source lines 229-236): keep transitions whose `updated_date`
parses, then sort stably ascending by the parsed date. -/
def sorted_transitions (ts : List Trans) : List (Nat × Trans) :=
  sortByDate (ts.filterMap (fun t => (parse_date t.updated_date).map (fun d => (d, t))))

/-! ### Priority classification

Each analysis upper-cases the raw priority label and extracts a candidate
tier; articles whose candidate is not one of `P1`..`P4` are skipped. -/

/-- Priority extraction used by the date-based analyses (e.g. source lines
202-216): if the upper-cased label starts with `'P'`, take everything
before the first `'-'` when a dash is present; otherwise take the first
two characters when the second is a digit, else the whole label. -/
def extract_priority (priority_raw : String) : Option String :=
  let pr := upperStr priority_raw
  if "P".data.isPrefixOf pr.data then
    if containsSub "-" pr then some ⟨pr.data.takeWhile (fun c => c ≠ '-')⟩
    else if 2 ≤ pr.length ∧ isDigitC (pr.data.getD 1 ' ') then some ⟨pr.data.take 2⟩
    else some pr
  else none

/-- Priority extraction used by `analyze_start_to_end_transitions_from_api_data`
(source lines 402-407): same, but the no-dash branch takes the first two
characters whenever the label has at least two characters. -/
def extract_priority2 (priority_raw : String) : Option String :=
  let pr := upperStr priority_raw
  if "P".data.isPrefixOf pr.data then
    if containsSub "-" pr then some ⟨pr.data.takeWhile (fun c => c ≠ '-')⟩
    else if 2 ≤ pr.length then some ⟨pr.data.take 2⟩ else some pr
  else none

/-- The valid tiers. -/
def validTiers : List String := ["P1", "P2", "P3", "P4"]

/-- Extraction followed by the `priority not in ['P1','P2','P3','P4']`
membership filter. -/
def classify_priority (priority_raw : String) : Option String :=
  match extract_priority priority_raw with
  | some p => if p ∈ validTiers then some p else none
  | none => none

/-- Same filter over the `analyze_start_to_end` extraction variant. -/
def classify_priority2 (priority_raw : String) : Option String :=
  match extract_priority2 priority_raw with
  | some p => if p ∈ validTiers then some p else none
  | none => none

/-! ### Rejection filter -/

/-- Does a lowered status label contain `"rejected"`? -/
def statusIsRejected (status : String) : Bool :=
  containsSub "rejected" (lowerStr status)

/-- Does any transition carry a rejected status? (the
`for trans in transitions: ... break` loop). -/
def hasRejectedTransition (ts : List Trans) : Bool :=
  ts.any (fun t => statusIsRejected t.status)

/-! ### Duration bucket chains

The source repeats three if/elif shapes.  `chain3` is the shape with the
redundant lower bound (`elif days >= lo and days <= hi`, metrics 1 and 3);
`chain3b` is the shape without it (`elif days <= hi`, all other
three-bucket chains); `chain2` is the two-bucket P4 shape. -/

def chain3 (lo hi : ℚ) (n1 n2 n3 : String) (days : ℚ) : String :=
  if days < lo then n1 else if lo ≤ days ∧ days ≤ hi then n2 else n3

def chain3b (lo hi : ℚ) (n1 n2 n3 : String) (days : ℚ) : String :=
  if days < lo then n1 else if days ≤ hi then n2 else n3

def chain2 (lo : ℚ) (n1 n2 : String) (days : ℚ) : String :=
  if days < lo then n1 else n2

/-- Buckets of metrics 1 and 3 (source lines 264-290 and 627-653). -/
def categorize_first_buckets (priority : String) (days : ℚ) : String :=
  if priority = "P1" then chain3 2 5 "< 2 days" "2 to 5 days" "> 5 days" days
  else if priority = "P2" then chain3 5 7 "< 5 days" "6 to 7 days" "> 7 days" days
  else if priority = "P3" then chain3 10 15 "< 10 days" "10 to 15 days" "> 15 days" days
  else if priority = "P4" then chain2 15 "< 15 days" "> 15 days" days
  else ""

/-- Buckets of metric 5 (source lines 1157-1183): same boundaries as
metrics 1 and 3, written without the redundant lower bound. -/
def categorize_first_buckets5 (priority : String) (days : ℚ) : String :=
  if priority = "P1" then chain3b 2 5 "< 2 days" "2 to 5 days" "> 5 days" days
  else if priority = "P2" then chain3b 5 7 "< 5 days" "6 to 7 days" "> 7 days" days
  else if priority = "P3" then chain3b 10 15 "< 10 days" "10 to 15 days" "> 15 days" days
  else if priority = "P4" then chain2 15 "< 15 days" "> 15 days" days
  else ""

/-- Buckets of metrics 2, 4, 6 and 8 (e.g. source lines 501-513). -/
def categorize_second_buckets (priority : String) (days : ℚ) : String :=
  if priority = "P1" ∨ priority = "P2" ∨ priority = "P3" then
    chain3b 10 15 "< 10 days" "10 to 15 days" "> 15 days" days
  else if priority = "P4" then chain2 15 "< 15 days" "> 15 days" days
  else ""

/-- Buckets of metric 7 (source lines 904-916). -/
def categorize_third_buckets (priority : String) (days : ℚ) : String :=
  if priority = "P1" ∨ priority = "P2" ∨ priority = "P3" then
    chain3b 7 10 "< 7 days" "7 to 10 days" "> 10 days" days
  else if priority = "P4" then chain2 10 "< 10 days" "> 10 days" days
  else ""

/-! ### Duration computation from timestamps -/

/-- `(end_date - start_date).days` (Python `timedelta.days` floors the
signed difference to whole days), injected into `ℚ` for bucketing. -/
def tdeltaDaysWhole (s e : Nat) : ℚ := (((e : Int) - (s : Int)).fdiv 86400 : Int)

/-- `(end_date - start_date).total_seconds() / (24 * 3600)`: exact
fractional days. -/
def tdeltaDaysFrac (s e : Nat) : ℚ := (((e : Int) - (s : Int) : Int) : ℚ) / 86400

/-! ### Interval selection of the date-based metrics

Each `find?` mirrors a `for ...: if cond: ...; break` loop over
`sorted_transitions`; the end loops test `date > start_date` before the
status condition. -/

/-- Metric 1 (`analyze_open_new_to_ack_triage…`, source lines 238-259):
first `open.new`, then the first strictly later-dated event whose status
is `open.acknowledged`, `open.triage` or `open.awaiting_submitter`. -/
def metric1_start_end (ts : List Trans) : Option (Nat × Nat) :=
  let st := sorted_transitions ts
  match st.find? (fun p => lowerStr p.2.status == "open.new") with
  | none => none
  | some ps =>
    match st.find? (fun p => decide (ps.1 < p.1) &&
        (lowerStr p.2.status == "open.acknowledged" ||
         lowerStr p.2.status == "open.triage" ||
         lowerStr p.2.status == "open.awaiting_submitter")) with
    | none => none
    | some pe => some (ps.1, pe.1)

/-- Metric 3 (`analyze_awaiting_submitter…`, source lines 599-617):
first `open.awaiting_submitter`, then the first strictly later-dated
event with any different status. -/
def metric3_start_end (ts : List Trans) : Option (Nat × Nat) :=
  let st := sorted_transitions ts
  match st.find? (fun p => lowerStr p.2.status == "open.awaiting_submitter") with
  | none => none
  | some ps =>
    match st.find? (fun p => decide (ps.1 < p.1) &&
        !(lowerStr p.2.status == "open.awaiting_submitter")) with
    | none => none
    | some pe => some (ps.1, pe.1)

/-- Metric 4 (`analyze_promoted_to_implemented…`, source lines 739-762):
first `open.promoted`, then the first strictly later-dated event with any
different status. -/
def metric4_start_end (ts : List Trans) : Option (Nat × Nat) :=
  let st := sorted_transitions ts
  match st.find? (fun p => lowerStr p.2.status == "open.promoted") with
  | none => none
  | some ps =>
    match st.find? (fun p => decide (ps.1 < p.1) &&
        !(lowerStr p.2.status == "open.promoted")) with
    | none => none
    | some pe => some (ps.1, pe.1)

/-- Metric 5 (`analyze_new_to_await_user_verify…`, source lines 1128-1149):
first `open.new`, then the first strictly later-dated
`implemented.await_user_verify`. -/
def metric5_start_end (ts : List Trans) : Option (Nat × Nat) :=
  let st := sorted_transitions ts
  match st.find? (fun p => lowerStr p.2.status == "open.new") with
  | none => none
  | some ps =>
    match st.find? (fun p => decide (ps.1 < p.1) &&
        (lowerStr p.2.status == "implemented.await_user_verify")) with
    | none => none
    | some pe => some (ps.1, pe.1)

/-- Metric 6 (`analyze_any_to_await_user_verify…`, source lines 1269-1294):
first `implemented.await_user_verify` in the sorted timeline; its
immediate predecessor is the start, except when the article has no
predecessor or the predecessor is `open.new`. -/
def metric6_start_end (ts : List Trans) : Option (Nat × Nat) :=
  let st := sorted_transitions ts
  match st.enum.find? (fun q => lowerStr q.2.2.status == "implemented.await_user_verify") with
  | none => none
  | some (i, p) =>
    if i = 0 then none
    else
      match st.get? (i - 1) with
      | none => none
      | some prev =>
        if lowerStr prev.2.status = "open.new" then none
        else some (prev.1, p.1)

/-- Metric 7 (`analyze_await_user_verify…`, source lines 871-893): first
`implemented` or `implemented.await_user_verify`, then the first strictly
later-dated `implemented` or `verified` different from the start
status. -/
def metric7_start_end (ts : List Trans) : Option (Nat × Nat) :=
  let st := sorted_transitions ts
  match st.find? (fun p => lowerStr p.2.status == "implemented" ||
      lowerStr p.2.status == "implemented.await_user_verify") with
  | none => none
  | some ps =>
    match st.find? (fun p => decide (ps.1 < p.1) &&
        (lowerStr p.2.status == "implemented" || lowerStr p.2.status == "verified") &&
        !(lowerStr p.2.status == lowerStr ps.2.status)) with
    | none => none
    | some pe => some (ps.1, pe.1)

/-- Metric 8 (`analyze_any_to_complete_product_changed…`, source lines
1002-1026): first `complete.product_changed`; its immediate predecessor
is the start (no status exclusion). -/
def metric8_start_end (ts : List Trans) : Option (Nat × Nat) :=
  let st := sorted_transitions ts
  match st.enum.find? (fun q => lowerStr q.2.2.status == "complete.product_changed") with
  | none => none
  | some (i, p) =>
    if i = 0 then none
    else
      match st.get? (i - 1) with
      | none => none
      | some prev => some (prev.1, p.1)

/-! ### Metric 2: summed recorded durations on the raw transition list
(`analyze_start_to_end_transitions_from_api_data`, source lines 343-525).
This analysis never parses or sorts dates: it works on the transitions in
input order. -/

def start_statuses : List String := ["open.new", "open.acknowledged", "open.triage"]
def end_statuses : List String := ["open.debug", "open.promoted", "open.root_caused", "implemented"]
def early_stop_statuses : List String := ["open.awaiting_submitter", "implemented.await_user_verify"]
def excluded_statuses : List String := ["open.promoted", "open.awaiting_3rd_party"]

/-- First pass (source lines 421-433): the last start-set index seen while
no end-set status had been seen yet, and the latest end-set index. -/
def metric2_first_pass (ts : List Trans) : Option Nat × Option Nat :=
  ts.enum.foldl
    (fun acc q =>
      let status := lowerStr q.2.status
      if status ∈ start_statuses then
        match acc.2 with
        | none => (some q.1, acc.2)
        | some _ => acc
      else if status ∈ end_statuses then (acc.1, some q.1)
      else acc)
    (none, none)

/-- First early-stop index in `[ls, le]` (source lines 444-451). -/
def metric2_early_stop (ts : List Trans) (ls le : Nat) : Option Nat :=
  (ts.enum.find? (fun q => decide (ls ≤ q.1) && decide (q.1 ≤ le) &&
    decide (lowerStr q.2.status ∈ early_stop_statuses))).map (fun q => q.1)

/-- Last end-set index in `[ls, i0)` (source lines 455-461: the loop keeps
overwriting `new_end_index`, so the final value is the last hit). -/
def metric2_last_end_before (ts : List Trans) (ls i0 : Nat) : Option Nat :=
  ((ts.enum.filter (fun q => decide (ls ≤ q.1) && decide (q.1 < i0) &&
    decide (lowerStr q.2.status ∈ end_statuses))).getLast?).map (fun q => q.1)

/-- The recorded durations that the summation loop (source lines 477-489)
accumulates: events in `[ls, le)` with a non-empty recorded duration whose
status is not in the excluded set. -/
def metric2_sum_items (ts : List Trans) (ls le : Nat) : List String :=
  (ts.enum.filter (fun q => decide (ls ≤ q.1) && decide (q.1 < le) &&
    !(q.2.duration == "") &&
    !(decide (lowerStr q.2.status ∈ excluded_statuses)))).map (fun q => q.2.duration)

/-- Sum of parsed durations over `[ls, le)` (source lines 477-489):
events with an empty recorded duration are passed over, and events whose
status is in the excluded set are skipped without halting the sum. -/
def metric2_sum_hours (ts : List Trans) (ls le : Nat) : ℚ :=
  ((metric2_sum_items ts ls le).map parse_time_spent_to_hours).sum

/-- The whole metric-2 interval computation: start index, end index after
any early-stop truncation, and the summed hours. -/
def metric2_core (ts : List Trans) : Option (Nat × Nat × ℚ) :=
  match metric2_first_pass ts with
  | (some ls, some le) =>
    match metric2_early_stop ts ls le with
    | some i0 =>
      match metric2_last_end_before ts ls i0 with
      | none => none
      | some newEnd => some (ls, newEnd, metric2_sum_hours ts ls newEnd)
    | none => some (ls, le, metric2_sum_hours ts ls le)
  | _ => none

/-! ### Per-article analysis bodies and the aggregation folds -/

/-- A bucket table: count per (tier, bucket-name) cell; all cells start
at 0. -/
def Buckets : Type := String → String → Nat

def zeroBuckets : Buckets := fun _ _ => 0

/-- Increment one (tier, bucket) cell. -/
def bump (p b : String) (tb : Buckets) : Buckets :=
  fun p' b' => if p' = p ∧ b' = b then tb p' b' + 1 else tb p' b'

/-- One fold step: a processed article contributes to exactly its cell, a
skipped article contributes nothing. -/
def bucketsStep (processF : Article → Option (String × String)) (tb : Buckets)
    (a : Article) : Buckets :=
  match processF a with
  | some (p, b) => bump p b tb
  | none => tb

/-- Per-article body of metric 1 (source lines 178-290): rejection check on
current status and all transitions, priority classification, empty-timeline
skip, start/end matching, whole-day duration, first-table bucketing. -/
def process_metric1 (a : Article) : Option (String × String) :=
  if statusIsRejected a.status || hasRejectedTransition a.transitions then none
  else
    match classify_priority a.priority with
    | none => none
    | some p =>
      if a.transitions = [] then none
      else
        match metric1_start_end a.transitions with
        | none => none
        | some (s, e) => some (p, categorize_first_buckets p (tdeltaDaysWhole s e))

/-- Per-article body of metric 2 (source lines 380-513): rejection check on
transitions only, variant priority extraction, first pass, early-stop
truncation, duration summation, second-table bucketing. -/
def process_metric2 (a : Article) : Option (String × String) :=
  if hasRejectedTransition a.transitions then none
  else
    match classify_priority2 a.priority with
    | none => none
    | some p =>
      if a.transitions = [] then none
      else
        match metric2_core a.transitions with
        | none => none
        | some (_, _, hours) => some (p, categorize_second_buckets p (hours / 24))

/-- Per-article body of metric 3 (source lines 548-653). -/
def process_metric3 (a : Article) : Option (String × String) :=
  if statusIsRejected a.status || hasRejectedTransition a.transitions then none
  else
    match classify_priority a.priority with
    | none => none
    | some p =>
      if a.transitions = [] then none
      else
        match metric3_start_end a.transitions with
        | none => none
        | some (s, e) => some (p, categorize_first_buckets p (tdeltaDaysWhole s e))

/-- Per-article body of metric 4 (source lines 688-781). -/
def process_metric4 (a : Article) : Option (String × String) :=
  if statusIsRejected a.status || hasRejectedTransition a.transitions then none
  else
    match classify_priority a.priority with
    | none => none
    | some p =>
      if a.transitions = [] then none
      else
        match metric4_start_end a.transitions with
        | none => none
        | some (s, e) => some (p, categorize_second_buckets p (tdeltaDaysWhole s e))

/-- Per-article body of metric 5 (source lines 1077-1183): fractional
days. -/
def process_metric5 (a : Article) : Option (String × String) :=
  if statusIsRejected a.status || hasRejectedTransition a.transitions then none
  else
    match classify_priority a.priority with
    | none => none
    | some p =>
      if a.transitions = [] then none
      else
        match metric5_start_end a.transitions with
        | none => none
        | some (s, e) => some (p, categorize_first_buckets5 p (tdeltaDaysFrac s e))

/-- Per-article body of metric 6 (source lines 1218-1314): fractional
days. -/
def process_metric6 (a : Article) : Option (String × String) :=
  if statusIsRejected a.status || hasRejectedTransition a.transitions then none
  else
    match classify_priority a.priority with
    | none => none
    | some p =>
      if a.transitions = [] then none
      else
        match metric6_start_end a.transitions with
        | none => none
        | some (s, e) => some (p, categorize_second_buckets p (tdeltaDaysFrac s e))

/-- Per-article body of metric 7 (source lines 820-916): fractional
days. -/
def process_metric7 (a : Article) : Option (String × String) :=
  if statusIsRejected a.status || hasRejectedTransition a.transitions then none
  else
    match classify_priority a.priority with
    | none => none
    | some p =>
      if a.transitions = [] then none
      else
        match metric7_start_end a.transitions with
        | none => none
        | some (s, e) => some (p, categorize_third_buckets p (tdeltaDaysFrac s e))

/-- Per-article body of metric 8 (source lines 951-1042): fractional
days. -/
def process_metric8 (a : Article) : Option (String × String) :=
  if statusIsRejected a.status || hasRejectedTransition a.transitions then none
  else
    match classify_priority a.priority with
    | none => none
    | some p =>
      if a.transitions = [] then none
      else
        match metric8_start_end a.transitions with
        | none => none
        | some (s, e) => some (p, categorize_second_buckets p (tdeltaDaysFrac s e))

def analyze_open_new_to_ack_triage_transitions_from_api_data
    (articles : List Article) : Buckets :=
  articles.foldl (bucketsStep process_metric1) zeroBuckets

def analyze_start_to_end_transitions_from_api_data
    (articles : List Article) : Buckets :=
  articles.foldl (bucketsStep process_metric2) zeroBuckets

def analyze_awaiting_submitter_transitions_from_api_data
    (articles : List Article) : Buckets :=
  articles.foldl (bucketsStep process_metric3) zeroBuckets

def analyze_promoted_to_implemented_transitions_from_api_data
    (articles : List Article) : Buckets :=
  articles.foldl (bucketsStep process_metric4) zeroBuckets

def analyze_new_to_await_user_verify_transitions_from_api_data
    (articles : List Article) : Buckets :=
  articles.foldl (bucketsStep process_metric5) zeroBuckets

def analyze_any_to_await_user_verify_transitions_from_api_data
    (articles : List Article) : Buckets :=
  articles.foldl (bucketsStep process_metric6) zeroBuckets

def analyze_await_user_verify_transitions_from_api_data
    (articles : List Article) : Buckets :=
  articles.foldl (bucketsStep process_metric7) zeroBuckets

def analyze_any_to_complete_product_changed_transitions_from_api_data
    (articles : List Article) : Buckets :=
  articles.foldl (bucketsStep process_metric8) zeroBuckets

/-! ### Rejected-articles summary (source lines 113-155) -/

structure RejEntry where
  id : String
  reason : String
  priority : String
deriving DecidableEq, Repr

/-- Per-article body of `get_rejected_articles_summary`: when the current
status is rejected the reason is the current status; a rejected timeline
event (first in input order — the loop breaks at the first hit) supplies
the reason only when the reason is still empty. -/
def process_rejected_summary (a : Article) : Option RejEntry :=
  let isRej0 := statusIsRejected a.status
  let reason0 := if isRej0 then a.status else ""
  let res :=
    match a.transitions.find? (fun t => statusIsRejected t.status) with
    | some t => (true, if reason0 = "" then t.status else reason0)
    | none => (isRej0, reason0)
  if res.1 then some ⟨a.id, res.2, a.priority⟩ else none

def get_rejected_articles_summary (articles : List Article) : List RejEntry :=
  articles.filterMap process_rejected_summary

/-! ## Helper lemmas -/

theorem mem_insertByDate {a x : Nat × Trans} {l : List (Nat × Trans)} :
    a ∈ insertByDate x l ↔ a = x ∨ a ∈ l := by
  induction l with
  | nil => simp [insertByDate]
  | cons y ys ih =>
    by_cases h : y.1 < x.1
    · simp [insertByDate, h, ih]; tauto
    · simp [insertByDate, h]

theorem pairwise_insertByDate {x : Nat × Trans} {l : List (Nat × Trans)}
    (h : l.Pairwise (fun a b => a.1 ≤ b.1)) :
    (insertByDate x l).Pairwise (fun a b => a.1 ≤ b.1) := by
  induction l with
  | nil => simp [insertByDate]
  | cons y ys ih =>
    rw [List.pairwise_cons] at h
    by_cases hc : y.1 < x.1
    · simp only [insertByDate, if_pos hc]
      rw [List.pairwise_cons]
      refine ⟨fun b hb => ?_, ih h.2⟩
      rcases mem_insertByDate.mp hb with hbx | hby
      · exact hbx ▸ Nat.le_of_lt hc
      · exact h.1 b hby
    · simp only [insertByDate, if_neg hc]
      rw [List.pairwise_cons]
      refine ⟨fun b hb => ?_, List.pairwise_cons.mpr h⟩
      rcases List.mem_cons.mp hb with hby | hbys
      · exact hby ▸ Nat.le_of_not_lt hc
      · exact Nat.le_trans (Nat.le_of_not_lt hc) (h.1 b hbys)

theorem insertByDate_eq_takeWhile_dropWhile (x : Nat × Trans) (l : List (Nat × Trans)) :
    insertByDate x l =
      l.takeWhile (fun y => decide (y.1 < x.1)) ++
        x :: l.dropWhile (fun y => decide (y.1 < x.1)) := by
  induction l with
  | nil => simp [insertByDate]
  | cons y ys ih =>
    by_cases h : y.1 < x.1 <;>
      simp [insertByDate, h, List.takeWhile_cons, List.dropWhile_cons, ih]

theorem filter_key_insertByDate (k : Nat) (x : Nat × Trans) (l : List (Nat × Trans)) :
    (insertByDate x l).filter (fun p => p.1 == k) =
      (if x.1 = k then [x] else []) ++ l.filter (fun p => p.1 == k) := by
  induction l with
  | nil =>
    by_cases hk : x.1 = k <;> simp [insertByDate, List.filter_cons, hk]
  | cons y ys ih =>
    by_cases hc : y.1 < x.1
    · rw [insertByDate, if_pos hc]
      by_cases hyk : y.1 = k
      · have hxk : ¬x.1 = k := by omega
        have hb : (y.1 == k) = true := by simpa using hyk
        simp [List.filter_cons, hb, ih, hxk]
      · have hb : (y.1 == k) = false := by simpa using hyk
        simp [List.filter_cons, hb, ih]
    · rw [insertByDate, if_neg hc]
      by_cases hk : x.1 = k <;> simp [List.filter_cons, hk]

theorem filter_key_sortByDate (k : Nat) (l : List (Nat × Trans)) :
    (sortByDate l).filter (fun p => p.1 == k) = l.filter (fun p => p.1 == k) := by
  induction l with
  | nil => rfl
  | cons x xs ih =>
    rw [sortByDate, filter_key_insertByDate, ih, List.filter_cons]
    by_cases hk : x.1 = k
    · simp [hk]
    · have : (x.1 == k) = false := by simpa using hk
      simp [hk, this]

theorem mem_sortByDate {a : Nat × Trans} {l : List (Nat × Trans)} :
    a ∈ sortByDate l ↔ a ∈ l := by
  induction l with
  | nil => simp [sortByDate]
  | cons x xs ih => simp [sortByDate, mem_insertByDate, ih]

theorem pairwise_sortByDate (l : List (Nat × Trans)) :
    (sortByDate l).Pairwise (fun a b => a.1 ≤ b.1) := by
  induction l with
  | nil => exact List.Pairwise.nil
  | cons x xs ih => exact pairwise_insertByDate ih

theorem foldl_bucketsStep_skip (f : Article → Option (String × String)) {a : Article}
    (h : f a = none) (z : Buckets) (rest : List Article) :
    List.foldl (bucketsStep f) z (a :: rest) = List.foldl (bucketsStep f) z rest := by
  simp [List.foldl_cons, bucketsStep, h]

/-! Bucket-chain characterizations. -/

/-- The boundary discipline of a three-bucket chain: lowest bucket iff
strictly below `lo`, middle bucket iff in the closed interval `[lo, hi]`,
top bucket iff strictly above `hi`. -/
def bucketChain3Spec (f : ℚ → String) (lo hi : ℚ) (n1 n2 n3 : String) : Prop :=
  ∀ d : ℚ, (f d = n1 ↔ d < lo) ∧ (f d = n2 ↔ lo ≤ d ∧ d ≤ hi) ∧ (f d = n3 ↔ hi < d)

/-- The boundary discipline of a two-bucket chain. -/
def bucketChain2Spec (f : ℚ → String) (lo : ℚ) (n1 n2 : String) : Prop :=
  ∀ d : ℚ, (f d = n1 ↔ d < lo) ∧ (f d = n2 ↔ lo ≤ d)

theorem chain3_spec {lo hi : ℚ} {n1 n2 n3 : String}
    (h12 : n1 ≠ n2) (h13 : n1 ≠ n3) (h23 : n2 ≠ n3) (hb : lo ≤ hi) :
    bucketChain3Spec (chain3 lo hi n1 n2 n3) lo hi n1 n2 n3 := by
  intro d
  unfold chain3
  split_ifs with h1 h2
  · refine ⟨by simp [h1], ?_, ?_⟩
    · exact ⟨fun hc => absurd hc h12, fun hc => absurd h1 (not_lt.mpr hc.1)⟩
    · exact ⟨fun hc => absurd hc h13, fun hc => absurd h1 (not_lt.mpr (by linarith))⟩
  · refine ⟨?_, by simp [h2], ?_⟩
    · exact ⟨fun hc => absurd hc.symm h12, fun hc => absurd hc h1⟩
    · exact ⟨fun hc => absurd hc h23, fun hc => absurd hc (not_lt.mpr h2.2)⟩
  · have hlo : lo ≤ d := le_of_not_lt h1
    have hd : hi < d := lt_of_not_le fun hle => h2 ⟨hlo, hle⟩
    refine ⟨?_, ?_, by simp [hd]⟩
    · exact ⟨fun hc => absurd hc.symm h13, fun hc => absurd hd (not_lt.mpr (by linarith))⟩
    · exact ⟨fun hc => absurd hc.symm h23, fun hc => absurd hc h2⟩

theorem chain3b_spec {lo hi : ℚ} {n1 n2 n3 : String}
    (h12 : n1 ≠ n2) (h13 : n1 ≠ n3) (h23 : n2 ≠ n3) (hb : lo ≤ hi) :
    bucketChain3Spec (chain3b lo hi n1 n2 n3) lo hi n1 n2 n3 := by
  intro d
  unfold chain3b
  split_ifs with h1 h2
  · refine ⟨by simp [h1], ?_, ?_⟩
    · exact ⟨fun hc => absurd hc h12, fun hc => absurd h1 (not_lt.mpr hc.1)⟩
    · exact ⟨fun hc => absurd hc h13, fun hc => absurd h1 (not_lt.mpr (by linarith))⟩
  · have hlo : lo ≤ d := le_of_not_lt h1
    refine ⟨?_, by simp [hlo, h2], ?_⟩
    · exact ⟨fun hc => absurd hc.symm h12, fun hc => absurd hc h1⟩
    · exact ⟨fun hc => absurd hc h23, fun hc => absurd hc (not_lt.mpr h2)⟩
  · have hd : hi < d := lt_of_not_le h2
    refine ⟨?_, ?_, by simp [hd]⟩
    · exact ⟨fun hc => absurd hc.symm h13, fun hc => absurd hd (not_lt.mpr (by linarith))⟩
    · exact ⟨fun hc => absurd hc.symm h23, fun hc => absurd hc.2 h2⟩

theorem chain2_spec {lo : ℚ} {n1 n2 : String} (h12 : n1 ≠ n2) :
    bucketChain2Spec (chain2 lo n1 n2) lo n1 n2 := by
  intro d
  unfold chain2
  split_ifs with h1
  · exact ⟨by simp [h1], ⟨fun hc => absurd hc h12, fun hc => absurd h1 (not_lt.mpr hc)⟩⟩
  · exact ⟨⟨fun hc => absurd hc.symm h12, fun hc => absurd hc h1⟩, by simp [le_of_not_lt h1]⟩

/-! ## Claim theorems -/

/-- C6: the duration magnitude parser in effect for the analyses maps
`'5 Days 23 Hours'` to 143 hours, `'< 1 Hour'` (any letter case) to exactly
0.5 hours, `'28 Days 3 Hours'` to 675 hours, and empty or unparseable
input to 0; a unit whose count cannot be parsed contributes zero. -/
theorem C6_magnitude_parse_values :
    parse_time_spent_to_hours "5 Days 23 Hours" = 143 ∧
    parse_time_spent_to_hours "< 1 Hour" = 1/2 ∧
    parse_time_spent_to_hours "< 1 hOuR" = 1/2 ∧
    parse_time_spent_to_hours "28 Days 3 Hours" = 675 ∧
    parse_time_spent_to_hours "" = 0 ∧
    parse_time_spent_to_hours "unparseable text" = 0 ∧
    parse_time_spent_to_hours "Days and Hours" = 0 ∧
    parse_time_spent_to_hours "5 Days" = 120 ∧
    parse_time_spent_to_hours "23 Hours" = 23 ∧
    (∀ s : String, containsSub "day" (lowerStr (stripStr s)) = false →
      containsSub "hour" (lowerStr (stripStr s)) = false →
      containsSub "< 1 hour" (lowerStr (stripStr s)) = false →
      parse_time_spent_to_hours s = 0) := by
  refine ⟨?_, ?_, ?_, ?_, ?_, ?_, ?_, ?_, ?_, ?_⟩
  · have h0 : containsSub "< 1 hour" (lowerStr (stripStr "5 Days 23 Hours")) = false := by decide
    have h1 : containsSub "day" (lowerStr (stripStr "5 Days 23 Hours")) = true := by decide
    have h2 : containsSub "hour" (lowerStr (stripStr "5 Days 23 Hours")) = true := by decide
    have h3 : findNumBefore true "day".data (lowerStr (stripStr "5 Days 23 Hours")).data
        = some 5 := by decide
    have h4 : findNumBefore true "hour".data (lowerStr (stripStr "5 Days 23 Hours")).data
        = some 23 := by decide
    simp [parse_time_spent_to_hours, h0, h1, h2, h3, h4]
    norm_num
  · have h0 : containsSub "< 1 hour" (lowerStr (stripStr "< 1 Hour")) = true := by decide
    simp [parse_time_spent_to_hours, h0]
  · have h0 : containsSub "< 1 hour" (lowerStr (stripStr "< 1 hOuR")) = true := by decide
    simp [parse_time_spent_to_hours, h0]
  · have h0 : containsSub "< 1 hour" (lowerStr (stripStr "28 Days 3 Hours")) = false := by decide
    have h1 : containsSub "day" (lowerStr (stripStr "28 Days 3 Hours")) = true := by decide
    have h2 : containsSub "hour" (lowerStr (stripStr "28 Days 3 Hours")) = true := by decide
    have h3 : findNumBefore true "day".data (lowerStr (stripStr "28 Days 3 Hours")).data
        = some 28 := by decide
    have h4 : findNumBefore true "hour".data (lowerStr (stripStr "28 Days 3 Hours")).data
        = some 3 := by decide
    simp [parse_time_spent_to_hours, h0, h1, h2, h3, h4]
    norm_num
  · simp [parse_time_spent_to_hours]
  · have h1 : containsSub "day" (lowerStr (stripStr "unparseable text")) = false := by decide
    have h2 : containsSub "hour" (lowerStr (stripStr "unparseable text")) = false := by decide
    have h0 : containsSub "< 1 hour" (lowerStr (stripStr "unparseable text")) = false := by decide
    simp [parse_time_spent_to_hours, h0, h1, h2]
  · have h0 : containsSub "< 1 hour" (lowerStr (stripStr "Days and Hours")) = false := by decide
    have h1 : containsSub "day" (lowerStr (stripStr "Days and Hours")) = true := by decide
    have h2 : containsSub "hour" (lowerStr (stripStr "Days and Hours")) = true := by decide
    have h3 : findNumBefore true "day".data (lowerStr (stripStr "Days and Hours")).data
        = none := by decide
    have h4 : findNumBefore true "hour".data (lowerStr (stripStr "Days and Hours")).data
        = none := by decide
    simp [parse_time_spent_to_hours, h0, h1, h2, h3, h4]
  · have h0 : containsSub "< 1 hour" (lowerStr (stripStr "5 Days")) = false := by decide
    have h1 : containsSub "day" (lowerStr (stripStr "5 Days")) = true := by decide
    have h2 : containsSub "hour" (lowerStr (stripStr "5 Days")) = false := by decide
    have h3 : findNumBefore true "day".data (lowerStr (stripStr "5 Days")).data
        = some 5 := by decide
    simp [parse_time_spent_to_hours, h0, h1, h2, h3]
    norm_num
  · have h0 : containsSub "< 1 hour" (lowerStr (stripStr "23 Hours")) = false := by decide
    have h1 : containsSub "day" (lowerStr (stripStr "23 Hours")) = false := by decide
    have h2 : containsSub "hour" (lowerStr (stripStr "23 Hours")) = true := by decide
    have h4 : findNumBefore true "hour".data (lowerStr (stripStr "23 Hours")).data
        = some 23 := by decide
    simp [parse_time_spent_to_hours, h0, h1, h2, h4]
  · intro s h1 h2 h3
    by_cases he : s = ""
    · simp [parse_time_spent_to_hours, he]
    · simp [parse_time_spent_to_hours, he, h1, h2, h3]

/-- Witness for C6: the universal conjunct applied at the concrete
unparseable input `"xyz"`. -/
theorem C6_magnitude_parse_values_witness : parse_time_spent_to_hours "xyz" = 0 :=
  C6_magnitude_parse_values.2.2.2.2.2.2.2.2.2 "xyz" (by decide) (by decide) (by decide)

/-- C10: the source's two definitions of `parse_time_spent_to_hours` are
not extensionally equal: on `'< 1 Hour'` the first returns 1.0 while the
second (the one in effect for the analyses) returns 0.5, and on `'5days'`
(no whitespace before the unit) the first returns 120.0 while the second
returns 0; the metric-2 duration sum applies the second definition. -/
theorem C10_shadowed_parser_definitions :
    parse_time_spent_to_hours_v1 "< 1 Hour" = 1 ∧
    parse_time_spent_to_hours "< 1 Hour" = 1/2 ∧
    parse_time_spent_to_hours_v1 "5days" = 120 ∧
    parse_time_spent_to_hours "5days" = 0 ∧
    parse_time_spent_to_hours_v1 "< 1 Hour" ≠ parse_time_spent_to_hours "< 1 Hour" ∧
    metric2_sum_hours [⟨"open.new", "", "< 1 Hour"⟩, ⟨"implemented", "", ""⟩] 0 1 = 1/2 := by
  have hv1a : parse_time_spent_to_hours_v1 "< 1 Hour" = 1 := by
    unfold parse_time_spent_to_hours_v1
    rw [if_neg (by decide), if_pos (by decide)]
  have hv2a : parse_time_spent_to_hours "< 1 Hour" = 1/2 := by
    have h0 : containsSub "< 1 hour" (lowerStr (stripStr "< 1 Hour")) = true := by decide
    simp [parse_time_spent_to_hours, h0]
  refine ⟨hv1a, hv2a, ?_, ?_, ?_, ?_⟩
  · unfold parse_time_spent_to_hours_v1
    rw [if_neg (by decide), if_neg (by decide)]
    have h3 : findNumBefore false "day".data (lowerStr (stripStr "5days")).data
        = some 5 := by decide
    have h4 : findNumBefore false "hour".data (lowerStr (stripStr "5days")).data
        = none := by decide
    simp [h3, h4]
    norm_num
  · have h0 : containsSub "< 1 hour" (lowerStr (stripStr "5days")) = false := by decide
    have h1 : containsSub "day" (lowerStr (stripStr "5days")) = true := by decide
    have h2 : containsSub "hour" (lowerStr (stripStr "5days")) = false := by decide
    have h3 : findNumBefore true "day".data (lowerStr (stripStr "5days")).data = none := by decide
    simp [parse_time_spent_to_hours, h0, h1, h2, h3]
  · rw [hv1a, hv2a]; norm_num
  · have hitems : metric2_sum_items [⟨"open.new", "", "< 1 Hour"⟩, ⟨"implemented", "", ""⟩] 0 1
        = ["< 1 Hour"] := by decide
    rw [metric2_sum_hours, hitems]
    simp [hv2a]

/-- A P1 article whose start/end events are exactly 2.0 days apart. -/
def article_two_days : Article :=
  ⟨"b1", "open", "P1",
   [⟨"open.new", "0001-01-01 00:00:00", ""⟩,
    ⟨"open.acknowledged", "0001-01-03 00:00:00", ""⟩]⟩

/-- C8: in every metric's bucket table the lowest bucket is entered iff the
duration is strictly below its boundary, interior buckets include their
upper boundary, and the final bucket catches everything above; a metric-1
duration of exactly 2.0 days for a P1 entity lands in `'2 to 5 days'`. -/
theorem C8_bucket_boundaries :
    bucketChain3Spec (categorize_first_buckets "P1") 2 5 "< 2 days" "2 to 5 days" "> 5 days" ∧
    bucketChain3Spec (categorize_first_buckets "P2") 5 7 "< 5 days" "6 to 7 days" "> 7 days" ∧
    bucketChain3Spec (categorize_first_buckets "P3") 10 15 "< 10 days" "10 to 15 days" "> 15 days" ∧
    bucketChain2Spec (categorize_first_buckets "P4") 15 "< 15 days" "> 15 days" ∧
    bucketChain3Spec (categorize_first_buckets5 "P1") 2 5 "< 2 days" "2 to 5 days" "> 5 days" ∧
    bucketChain3Spec (categorize_first_buckets5 "P2") 5 7 "< 5 days" "6 to 7 days" "> 7 days" ∧
    bucketChain3Spec (categorize_first_buckets5 "P3") 10 15 "< 10 days" "10 to 15 days" "> 15 days" ∧
    bucketChain2Spec (categorize_first_buckets5 "P4") 15 "< 15 days" "> 15 days" ∧
    bucketChain3Spec (categorize_second_buckets "P1") 10 15 "< 10 days" "10 to 15 days" "> 15 days" ∧
    bucketChain3Spec (categorize_second_buckets "P2") 10 15 "< 10 days" "10 to 15 days" "> 15 days" ∧
    bucketChain3Spec (categorize_second_buckets "P3") 10 15 "< 10 days" "10 to 15 days" "> 15 days" ∧
    bucketChain2Spec (categorize_second_buckets "P4") 15 "< 15 days" "> 15 days" ∧
    bucketChain3Spec (categorize_third_buckets "P1") 7 10 "< 7 days" "7 to 10 days" "> 10 days" ∧
    bucketChain3Spec (categorize_third_buckets "P2") 7 10 "< 7 days" "7 to 10 days" "> 10 days" ∧
    bucketChain3Spec (categorize_third_buckets "P3") 7 10 "< 7 days" "7 to 10 days" "> 10 days" ∧
    bucketChain2Spec (categorize_third_buckets "P4") 10 "< 10 days" "> 10 days" ∧
    process_metric1 article_two_days = some ("P1", "2 to 5 days") := by
  refine ⟨chain3_spec (by decide) (by decide) (by decide) (by norm_num),
    chain3_spec (by decide) (by decide) (by decide) (by norm_num),
    chain3_spec (by decide) (by decide) (by decide) (by norm_num),
    chain2_spec (by decide),
    chain3b_spec (by decide) (by decide) (by decide) (by norm_num),
    chain3b_spec (by decide) (by decide) (by decide) (by norm_num),
    chain3b_spec (by decide) (by decide) (by decide) (by norm_num),
    chain2_spec (by decide),
    chain3b_spec (by decide) (by decide) (by decide) (by norm_num),
    chain3b_spec (by decide) (by decide) (by decide) (by norm_num),
    chain3b_spec (by decide) (by decide) (by decide) (by norm_num),
    chain2_spec (by decide),
    chain3b_spec (by decide) (by decide) (by decide) (by norm_num),
    chain3b_spec (by decide) (by decide) (by decide) (by norm_num),
    chain3b_spec (by decide) (by decide) (by decide) (by norm_num),
    chain2_spec (by decide), ?_⟩
  have hrej : (statusIsRejected article_two_days.status ||
      hasRejectedTransition article_two_days.transitions) = false := by decide
  have hcl : classify_priority article_two_days.priority = some "P1" := by decide
  have hne : ¬(article_two_days.transitions = []) := by decide
  have hse : metric1_start_end article_two_days.transitions = some (0, 172800) := by decide
  have hdiv : ((172800:Int) - 0).fdiv 86400 = 2 := by decide
  have hdays : tdeltaDaysWhole 0 172800 = 2 := by
    unfold tdeltaDaysWhole
    rw [show ((172800:Nat) : Int) = (172800:Int) by norm_num,
      show ((0:Nat) : Int) = (0:Int) by norm_num, hdiv]
    norm_num
  have hcat : categorize_first_buckets "P1" (2:ℚ) = "2 to 5 days" := by
    unfold categorize_first_buckets chain3
    rw [if_pos rfl, if_neg (by norm_num), if_pos (by norm_num)]
  simp [process_metric1, hrej, hcl, hne, hse, hdays, hcat]

/-- An article whose current status is rejected while its timeline has no
rejected event. -/
def article_status_rejected_only : Article :=
  ⟨"r1", "rejected", "P1", [⟨"open.new", "", ""⟩, ⟨"implemented", "", ""⟩]⟩

/-- An article rejected both by current status and by a timeline event. -/
def article_both_rejected : Article :=
  ⟨"r2", "rejected", "P1", [⟨"rejected.duplicate", "", ""⟩]⟩

/-- C1 counterexample: an entity whose current status contains `rejected`
(but whose timeline has no rejected event) still contributes one count to
metric 2's bucket table, because `analyze_start_to_end…` checks only the
timeline for rejection. -/
theorem C1_counterexample_metric2_counts_status_rejected :
    statusIsRejected article_status_rejected_only.status = true ∧
    hasRejectedTransition article_status_rejected_only.transitions = false ∧
    analyze_start_to_end_transitions_from_api_data [article_status_rejected_only]
      "P1" "< 10 days" = 1 := by
  refine ⟨by decide, by decide, ?_⟩
  have hrej : hasRejectedTransition article_status_rejected_only.transitions = false := by
    decide
  have hcl : classify_priority2 article_status_rejected_only.priority = some "P1" := by decide
  have hne : ¬(article_status_rejected_only.transitions = []) := by decide
  have hfp : metric2_first_pass article_status_rejected_only.transitions
      = (some 0, some 1) := by decide
  have hes : metric2_early_stop article_status_rejected_only.transitions 0 1 = none := by
    decide
  have hitems : metric2_sum_items article_status_rejected_only.transitions 0 1 = [] := by
    decide
  have hsum : metric2_sum_hours article_status_rejected_only.transitions 0 1 = 0 := by
    rw [metric2_sum_hours, hitems]; simp
  have hcore : metric2_core article_status_rejected_only.transitions = some (0, 1, 0) := by
    simp [metric2_core, hfp, hes, hsum]
  have hcat : categorize_second_buckets "P1" (0:ℚ) = "< 10 days" := by
    unfold categorize_second_buckets chain3b
    rw [if_pos (Or.inl rfl), if_pos (by norm_num)]
  have hproc : process_metric2 article_status_rejected_only = some ("P1", "< 10 days") := by
    simp [process_metric2, hrej, hcl, hne, hcore, hcat]
  simp [analyze_start_to_end_transitions_from_api_data, bucketsStep, hproc, bump, zeroBuckets]

/-- C1 (amended): an entity with a rejected timeline event contributes to
no cell of any of the eight metrics' bucket tables; an entity rejected
only through its current status contributes to no cell of metrics 1 and 3
through 8, but metric 2 does not consult the current status. -/
theorem C1_rejected_entities_excluded :
    ∀ (a : Article) (rest : List Article),
      (hasRejectedTransition a.transitions = true →
        analyze_open_new_to_ack_triage_transitions_from_api_data (a :: rest) =
          analyze_open_new_to_ack_triage_transitions_from_api_data rest ∧
        analyze_start_to_end_transitions_from_api_data (a :: rest) =
          analyze_start_to_end_transitions_from_api_data rest ∧
        analyze_awaiting_submitter_transitions_from_api_data (a :: rest) =
          analyze_awaiting_submitter_transitions_from_api_data rest ∧
        analyze_promoted_to_implemented_transitions_from_api_data (a :: rest) =
          analyze_promoted_to_implemented_transitions_from_api_data rest ∧
        analyze_new_to_await_user_verify_transitions_from_api_data (a :: rest) =
          analyze_new_to_await_user_verify_transitions_from_api_data rest ∧
        analyze_any_to_await_user_verify_transitions_from_api_data (a :: rest) =
          analyze_any_to_await_user_verify_transitions_from_api_data rest ∧
        analyze_await_user_verify_transitions_from_api_data (a :: rest) =
          analyze_await_user_verify_transitions_from_api_data rest ∧
        analyze_any_to_complete_product_changed_transitions_from_api_data (a :: rest) =
          analyze_any_to_complete_product_changed_transitions_from_api_data rest) ∧
      (statusIsRejected a.status = true →
        analyze_open_new_to_ack_triage_transitions_from_api_data (a :: rest) =
          analyze_open_new_to_ack_triage_transitions_from_api_data rest ∧
        analyze_awaiting_submitter_transitions_from_api_data (a :: rest) =
          analyze_awaiting_submitter_transitions_from_api_data rest ∧
        analyze_promoted_to_implemented_transitions_from_api_data (a :: rest) =
          analyze_promoted_to_implemented_transitions_from_api_data rest ∧
        analyze_new_to_await_user_verify_transitions_from_api_data (a :: rest) =
          analyze_new_to_await_user_verify_transitions_from_api_data rest ∧
        analyze_any_to_await_user_verify_transitions_from_api_data (a :: rest) =
          analyze_any_to_await_user_verify_transitions_from_api_data rest ∧
        analyze_await_user_verify_transitions_from_api_data (a :: rest) =
          analyze_await_user_verify_transitions_from_api_data rest ∧
        analyze_any_to_complete_product_changed_transitions_from_api_data (a :: rest) =
          analyze_any_to_complete_product_changed_transitions_from_api_data rest) := by
  intro a rest
  constructor
  · intro h
    exact ⟨foldl_bucketsStep_skip _ (by simp [process_metric1, h]) _ _,
      foldl_bucketsStep_skip _ (by simp [process_metric2, h]) _ _,
      foldl_bucketsStep_skip _ (by simp [process_metric3, h]) _ _,
      foldl_bucketsStep_skip _ (by simp [process_metric4, h]) _ _,
      foldl_bucketsStep_skip _ (by simp [process_metric5, h]) _ _,
      foldl_bucketsStep_skip _ (by simp [process_metric6, h]) _ _,
      foldl_bucketsStep_skip _ (by simp [process_metric7, h]) _ _,
      foldl_bucketsStep_skip _ (by simp [process_metric8, h]) _ _⟩
  · intro h
    exact ⟨foldl_bucketsStep_skip _ (by simp [process_metric1, h]) _ _,
      foldl_bucketsStep_skip _ (by simp [process_metric3, h]) _ _,
      foldl_bucketsStep_skip _ (by simp [process_metric4, h]) _ _,
      foldl_bucketsStep_skip _ (by simp [process_metric5, h]) _ _,
      foldl_bucketsStep_skip _ (by simp [process_metric6, h]) _ _,
      foldl_bucketsStep_skip _ (by simp [process_metric7, h]) _ _,
      foldl_bucketsStep_skip _ (by simp [process_metric8, h]) _ _⟩

/-- Witness for C1: the exclusion theorem applied to a concrete article
rejected both by timeline and by current status. -/
theorem C1_rejected_entities_excluded_witness :
    (analyze_open_new_to_ack_triage_transitions_from_api_data [article_both_rejected] =
        analyze_open_new_to_ack_triage_transitions_from_api_data [] ∧
      analyze_start_to_end_transitions_from_api_data [article_both_rejected] =
        analyze_start_to_end_transitions_from_api_data [] ∧
      analyze_awaiting_submitter_transitions_from_api_data [article_both_rejected] =
        analyze_awaiting_submitter_transitions_from_api_data [] ∧
      analyze_promoted_to_implemented_transitions_from_api_data [article_both_rejected] =
        analyze_promoted_to_implemented_transitions_from_api_data [] ∧
      analyze_new_to_await_user_verify_transitions_from_api_data [article_both_rejected] =
        analyze_new_to_await_user_verify_transitions_from_api_data [] ∧
      analyze_any_to_await_user_verify_transitions_from_api_data [article_both_rejected] =
        analyze_any_to_await_user_verify_transitions_from_api_data [] ∧
      analyze_await_user_verify_transitions_from_api_data [article_both_rejected] =
        analyze_await_user_verify_transitions_from_api_data [] ∧
      analyze_any_to_complete_product_changed_transitions_from_api_data [article_both_rejected] =
        analyze_any_to_complete_product_changed_transitions_from_api_data []) ∧
    (analyze_open_new_to_ack_triage_transitions_from_api_data [article_both_rejected] =
        analyze_open_new_to_ack_triage_transitions_from_api_data [] ∧
      analyze_awaiting_submitter_transitions_from_api_data [article_both_rejected] =
        analyze_awaiting_submitter_transitions_from_api_data [] ∧
      analyze_promoted_to_implemented_transitions_from_api_data [article_both_rejected] =
        analyze_promoted_to_implemented_transitions_from_api_data [] ∧
      analyze_new_to_await_user_verify_transitions_from_api_data [article_both_rejected] =
        analyze_new_to_await_user_verify_transitions_from_api_data [] ∧
      analyze_any_to_await_user_verify_transitions_from_api_data [article_both_rejected] =
        analyze_any_to_await_user_verify_transitions_from_api_data [] ∧
      analyze_await_user_verify_transitions_from_api_data [article_both_rejected] =
        analyze_await_user_verify_transitions_from_api_data [] ∧
      analyze_any_to_complete_product_changed_transitions_from_api_data [article_both_rejected] =
        analyze_any_to_complete_product_changed_transitions_from_api_data []) :=
  ⟨(C1_rejected_entities_excluded article_both_rejected []).1 (by decide),
   (C1_rejected_entities_excluded article_both_rejected []).2 (by decide)⟩

/-- A P1 article whose start/end events are exactly 5.5 days apart. -/
def article_five_half_days : Article :=
  ⟨"b2", "open", "P1",
   [⟨"open.new", "0001-01-01 00:00:00", ""⟩,
    ⟨"open.acknowledged", "0001-01-06 12:00:00", ""⟩]⟩

/-- C2 counterexample: metric 1 buckets `timedelta.days`, not fractional
days.  On a 5.5-day interval the bucketed value is the truncated 5, which
lands a P1 entity in `'2 to 5 days'`, while the end-minus-start duration
expressed as fractional days is 5.5 (which the claim says is bucketed, and
which would land in `'> 5 days'`). -/
theorem C2_counterexample_metric1_truncates :
    metric1_start_end article_five_half_days.transitions = some (0, 475200) ∧
    tdeltaDaysWhole 0 475200 = 5 ∧
    tdeltaDaysFrac 0 475200 = 11/2 ∧
    tdeltaDaysWhole 0 475200 ≠ tdeltaDaysFrac 0 475200 ∧
    process_metric1 article_five_half_days = some ("P1", "2 to 5 days") := by
  have hdiv : ((475200:Int) - 0).fdiv 86400 = 5 := by decide
  have hwhole : tdeltaDaysWhole 0 475200 = 5 := by
    unfold tdeltaDaysWhole
    rw [show ((475200:Nat) : Int) = (475200:Int) by norm_num,
      show ((0:Nat) : Int) = (0:Int) by norm_num, hdiv]
    norm_num
  have hfrac : tdeltaDaysFrac 0 475200 = 11/2 := by
    unfold tdeltaDaysFrac
    push_cast
    norm_num
  refine ⟨by decide, hwhole, hfrac, ?_, ?_⟩
  · rw [hwhole, hfrac]; norm_num
  · have hrej : (statusIsRejected article_five_half_days.status ||
        hasRejectedTransition article_five_half_days.transitions) = false := by decide
    have hcl : classify_priority article_five_half_days.priority = some "P1" := by decide
    have hne : ¬(article_five_half_days.transitions = []) := by decide
    have hse : metric1_start_end article_five_half_days.transitions = some (0, 475200) := by
      decide
    have hcat : categorize_first_buckets "P1" (5:ℚ) = "2 to 5 days" := by
      unfold categorize_first_buckets chain3
      rw [if_pos rfl, if_neg (by norm_num), if_pos (by norm_num)]
    simp [process_metric1, hrej, hcl, hne, hse, hwhole, hcat]

/-- C2 (amended): the fractional-days duration used by metrics 5, 6, 7
and 8 (`tdeltaDaysFrac`) is exactly the end timestamp minus the start
timestamp in days, with sub-day precision preserved; the duration used by
metrics 1, 3 and 4 (`tdeltaDaysWhole`) is the floor of that difference in
whole days, discarding sub-day precision. -/
theorem C2_timestamp_delta_durations :
    (∀ s e : Nat, tdeltaDaysFrac s e * 86400 = (e : ℚ) - (s : ℚ)) ∧
    (∀ s e : Nat, ∃ z : ℤ, tdeltaDaysWhole s e = (z : ℚ) ∧
      (z : ℚ) * 86400 ≤ (e : ℚ) - (s : ℚ) ∧
      (e : ℚ) - (s : ℚ) < ((z : ℚ) + 1) * 86400) := by
  constructor
  · intro s e
    unfold tdeltaDaysFrac
    push_cast
    field_simp
  · intro s e
    have hmain := Int.fdiv_add_fmod ((e : Int) - (s : Int)) 86400
    have hmainQ : (86400 : ℚ) * ((((e : Int) - (s : Int)).fdiv 86400 : Int) : ℚ) +
        ((((e : Int) - (s : Int)).fmod 86400 : Int) : ℚ) = (e : ℚ) - (s : ℚ) := by
      have hc := congrArg (fun z : Int => (z : ℚ)) hmain
      push_cast at hc
      linarith
    have hloQ : (0 : ℚ) ≤ ((((e : Int) - (s : Int)).fmod 86400 : Int) : ℚ) := by
      exact_mod_cast Int.fmod_nonneg' ((e : Int) - (s : Int)) (by norm_num : (0:Int) < 86400)
    have hhiQ : ((((e : Int) - (s : Int)).fmod 86400 : Int) : ℚ) < 86400 := by
      exact_mod_cast Int.fmod_lt_of_pos ((e : Int) - (s : Int)) (by norm_num : (0:Int) < 86400)
    exact ⟨((e : Int) - (s : Int)).fdiv 86400, rfl, by linarith, by linarith⟩

/-- A P1 article whose start-set and end-set events share one timestamp. -/
def article_equal_timestamps : Article :=
  ⟨"e1", "open", "P1",
   [⟨"open.new", "0001-01-01 00:00:00", ""⟩,
    ⟨"open.acknowledged", "0001-01-01 00:00:00", ""⟩]⟩

/-- C9 counterexample: an end-set event that appears after the start event
in the ordered timeline but carries the start event's timestamp is NOT
selected as the end — the end loops require `date > start_date` — so the
article yields no match at all. -/
theorem C9_counterexample_equal_timestamp_skipped :
    sorted_transitions article_equal_timestamps.transitions =
      [(0, ⟨"open.new", "0001-01-01 00:00:00", ""⟩),
       (0, ⟨"open.acknowledged", "0001-01-01 00:00:00", ""⟩)] ∧
    metric1_start_end article_equal_timestamps.transitions = none ∧
    process_metric1 article_equal_timestamps = none := by
  refine ⟨by decide, by decide, ?_⟩
  have hrej : (statusIsRejected article_equal_timestamps.status ||
      hasRejectedTransition article_equal_timestamps.transitions) = false := by decide
  have hcl : classify_priority article_equal_timestamps.priority = some "P1" := by decide
  have hne : ¬(article_equal_timestamps.transitions = []) := by decide
  have hse : metric1_start_end article_equal_timestamps.transitions = none := by decide
  simp [process_metric1, hrej, hcl, hne, hse]

/-- C9 (amended): for the first-after metrics (1, 3, 4, 5, 7) the end
event is the first event whose parsed timestamp is strictly greater than
the start event's timestamp that satisfies the end condition; an end-set
event with a timestamp equal to the start's is skipped, so every match has
a strictly later end timestamp. -/
theorem C9_end_timestamp_strictly_later :
    (∀ ts s e, metric1_start_end ts = some (s, e) → s < e) ∧
    (∀ ts s e, metric3_start_end ts = some (s, e) → s < e) ∧
    (∀ ts s e, metric4_start_end ts = some (s, e) → s < e) ∧
    (∀ ts s e, metric5_start_end ts = some (s, e) → s < e) ∧
    (∀ ts s e, metric7_start_end ts = some (s, e) → s < e) := by
  refine ⟨?_, ?_, ?_, ?_, ?_⟩
  · intro ts s e h
    simp only [metric1_start_end] at h
    split at h
    · exact absurd h (by simp)
    · split at h
      · exact absurd h (by simp)
      · next ps pe hpe =>
        have hp := List.find?_some hpe
        simp only [Bool.and_eq_true, decide_eq_true_eq] at hp
        injection h with h2
        obtain ⟨hs, he⟩ := Prod.mk.injEq .. |>.mp h2
        rw [← hs, ← he]
        exact hp.1
  · intro ts s e h
    simp only [metric3_start_end] at h
    split at h
    · exact absurd h (by simp)
    · split at h
      · exact absurd h (by simp)
      · next ps pe hpe =>
        have hp := List.find?_some hpe
        simp only [Bool.and_eq_true, decide_eq_true_eq] at hp
        injection h with h2
        obtain ⟨hs, he⟩ := Prod.mk.injEq .. |>.mp h2
        rw [← hs, ← he]
        exact hp.1
  · intro ts s e h
    simp only [metric4_start_end] at h
    split at h
    · exact absurd h (by simp)
    · split at h
      · exact absurd h (by simp)
      · next ps pe hpe =>
        have hp := List.find?_some hpe
        simp only [Bool.and_eq_true, decide_eq_true_eq] at hp
        injection h with h2
        obtain ⟨hs, he⟩ := Prod.mk.injEq .. |>.mp h2
        rw [← hs, ← he]
        exact hp.1
  · intro ts s e h
    simp only [metric5_start_end] at h
    split at h
    · exact absurd h (by simp)
    · split at h
      · exact absurd h (by simp)
      · next ps pe hpe =>
        have hp := List.find?_some hpe
        simp only [Bool.and_eq_true, decide_eq_true_eq] at hp
        injection h with h2
        obtain ⟨hs, he⟩ := Prod.mk.injEq .. |>.mp h2
        rw [← hs, ← he]
        exact hp.1
  · intro ts s e h
    simp only [metric7_start_end] at h
    split at h
    · exact absurd h (by simp)
    · split at h
      · exact absurd h (by simp)
      · next ps pe hpe =>
        have hp := List.find?_some hpe
        simp only [Bool.and_eq_true, decide_eq_true_eq] at hp
        injection h with h2
        obtain ⟨hs, he⟩ := Prod.mk.injEq .. |>.mp h2
        rw [← hs, ← he]
        exact hp.1.1

/-- Witness for C9: the metric-1 conjunct applied to a concrete matching
article. -/
theorem C9_end_timestamp_strictly_later_witness :
    metric1_start_end article_two_days.transitions = some (0, 172800) ∧ 0 < 172800 :=
  ⟨by decide,
   C9_end_timestamp_strictly_later.1 article_two_days.transitions 0 172800 (by decide)⟩

/-- An article rejected both through its current status and through a
(differently labelled) timeline event. -/
def article_rejected_both_reasons : Article :=
  ⟨"x1", "rejected.wont_fix", "P1", [⟨"rejected.duplicate", "2025-01-01 00:00:00", ""⟩]⟩

/-- C3 counterexample: when both the current status and the timeline are
rejected, the summary reports the CURRENT status (`rejected.wont_fix`),
not the first rejected timeline event (`rejected.duplicate`) as the claim
states. -/
theorem C3_counterexample_current_status_reported :
    statusIsRejected article_rejected_both_reasons.status = true ∧
    article_rejected_both_reasons.transitions.find? (fun t => statusIsRejected t.status)
      = some ⟨"rejected.duplicate", "2025-01-01 00:00:00", ""⟩ ∧
    get_rejected_articles_summary [article_rejected_both_reasons] =
      [⟨"x1", "rejected.wont_fix", "P1"⟩] := by decide

/-- C3 (amended): whenever the current status is rejected, the summary
entry's reason is the current status — the first rejected timeline event
(in input order) is used only when the current status is not rejected. -/
theorem C3_reason_is_current_status :
    ∀ a : Article, statusIsRejected a.status = true →
      process_rejected_summary a = some ⟨a.id, a.status, a.priority⟩ := by
  intro a h
  have hne : ¬(a.status = "") := by
    intro he
    rw [he] at h
    exact absurd h (by decide)
  cases hfind : a.transitions.find? (fun t => statusIsRejected t.status) with
  | none => simp [process_rejected_summary, hfind, h]
  | some t => simp [process_rejected_summary, hfind, h, hne]

/-- Witness for C3: the amended theorem applied to the concrete
doubly-rejected article. -/
theorem C3_reason_is_current_status_witness :
    process_rejected_summary article_rejected_both_reasons =
      some ⟨"x1", "rejected.wont_fix", "P1"⟩ :=
  C3_reason_is_current_status article_rejected_both_reasons (by decide)

/-- An article labelled `P1X-SHOWSTOPPER` with a timeline metric 1 would
otherwise match. -/
def article_p1x_suffix : Article :=
  ⟨"p1", "open", "P1X-SHOWSTOPPER",
   [⟨"open.new", "0001-01-01 00:00:00", ""⟩,
    ⟨"open.acknowledged", "0001-01-03 00:00:00", ""⟩]⟩

/-- The same article labelled `P1-SHOWSTOPPER`. -/
def article_p1_suffix : Article :=
  ⟨"p1", "open", "P1-SHOWSTOPPER",
   [⟨"open.new", "0001-01-01 00:00:00", ""⟩,
    ⟨"open.acknowledged", "0001-01-03 00:00:00", ""⟩]⟩

/-- C7 counterexample: the classifier takes the whole prefix before the
first `'-'`, not the two-character prefix, so `'P1X-SHOWSTOPPER'` (which
begins with `P` and a digit) extracts `'P1X'` and is unclassified — the
article contributes nothing, while the identical article labelled
`'P1-SHOWSTOPPER'` is counted as P1. -/
theorem C7_counterexample_dash_prefix_not_two_chars :
    extract_priority "P1X-SHOWSTOPPER" = some "P1X" ∧
    classify_priority "P1X-SHOWSTOPPER" = none ∧
    process_metric1 article_p1x_suffix = none ∧
    process_metric1 article_p1_suffix = some ("P1", "2 to 5 days") := by
  refine ⟨by decide, by decide, by decide, ?_⟩
  have hrej : (statusIsRejected article_p1_suffix.status ||
      hasRejectedTransition article_p1_suffix.transitions) = false := by decide
  have hcl : classify_priority article_p1_suffix.priority = some "P1" := by decide
  have hne : ¬(article_p1_suffix.transitions = []) := by decide
  have hse : metric1_start_end article_p1_suffix.transitions = some (0, 172800) := by decide
  have hdiv : ((172800:Int) - 0).fdiv 86400 = 2 := by decide
  have hdays : tdeltaDaysWhole 0 172800 = 2 := by
    unfold tdeltaDaysWhole
    rw [show ((172800:Nat) : Int) = (172800:Int) by norm_num,
      show ((0:Nat) : Int) = (0:Int) by norm_num, hdiv]
    norm_num
  have hcat : categorize_first_buckets "P1" (2:ℚ) = "2 to 5 days" := by
    unfold categorize_first_buckets chain3
    rw [if_pos rfl, if_neg (by norm_num), if_pos (by norm_num)]
  simp [process_metric1, hrej, hcl, hne, hse, hdays, hcat]

/-- C7 (amended): every classified tier is one of P1-P4; a label with a
dash classifies through its whole pre-dash prefix (so `P1-SHOWSTOPPER`
yields P1 but `P1X-SHOWSTOPPER` is unclassified), a dashless label through
its two-character prefix when the second character is a digit; and an
unclassified article contributes to no metric's bucket table. -/
theorem C7_priority_classifier :
    (∀ praw p, classify_priority praw = some p → p ∈ validTiers) ∧
    (∀ praw p, classify_priority2 praw = some p → p ∈ validTiers) ∧
    classify_priority "P1-SHOWSTOPPER" = some "P1" ∧
    classify_priority "P1X-SHOWSTOPPER" = none ∧
    classify_priority "P2" = some "P2" ∧
    classify_priority "p3" = some "P3" ∧
    classify_priority "P2X" = some "P2" ∧
    classify_priority "garbage" = none ∧
    classify_priority "" = none ∧
    (∀ (a : Article) (rest : List Article), classify_priority a.priority = none →
      analyze_open_new_to_ack_triage_transitions_from_api_data (a :: rest) =
        analyze_open_new_to_ack_triage_transitions_from_api_data rest ∧
      analyze_awaiting_submitter_transitions_from_api_data (a :: rest) =
        analyze_awaiting_submitter_transitions_from_api_data rest ∧
      analyze_promoted_to_implemented_transitions_from_api_data (a :: rest) =
        analyze_promoted_to_implemented_transitions_from_api_data rest ∧
      analyze_new_to_await_user_verify_transitions_from_api_data (a :: rest) =
        analyze_new_to_await_user_verify_transitions_from_api_data rest ∧
      analyze_any_to_await_user_verify_transitions_from_api_data (a :: rest) =
        analyze_any_to_await_user_verify_transitions_from_api_data rest ∧
      analyze_await_user_verify_transitions_from_api_data (a :: rest) =
        analyze_await_user_verify_transitions_from_api_data rest ∧
      analyze_any_to_complete_product_changed_transitions_from_api_data (a :: rest) =
        analyze_any_to_complete_product_changed_transitions_from_api_data rest) ∧
    (∀ (a : Article) (rest : List Article), classify_priority2 a.priority = none →
      analyze_start_to_end_transitions_from_api_data (a :: rest) =
        analyze_start_to_end_transitions_from_api_data rest) := by
  refine ⟨?_, ?_, by decide, by decide, by decide, by decide, by decide, by decide, by decide,
    fun a rest h => ⟨?_, ?_, ?_, ?_, ?_, ?_, ?_⟩, fun a rest h => ?_⟩
  · intro praw p h
    unfold classify_priority at h
    split at h
    · next q hq =>
      split at h
      · next hmem => injection h with h2; rw [← h2]; exact hmem
      · exact absurd h (by simp)
    · exact absurd h (by simp)
  · intro praw p h
    unfold classify_priority2 at h
    split at h
    · next q hq =>
      split at h
      · next hmem => injection h with h2; rw [← h2]; exact hmem
      · exact absurd h (by simp)
    · exact absurd h (by simp)
  · refine foldl_bucketsStep_skip _ ?_ _ _
    unfold process_metric1
    split
    · rfl
    · simp [h]
  · refine foldl_bucketsStep_skip _ ?_ _ _
    unfold process_metric3
    split
    · rfl
    · simp [h]
  · refine foldl_bucketsStep_skip _ ?_ _ _
    unfold process_metric4
    split
    · rfl
    · simp [h]
  · refine foldl_bucketsStep_skip _ ?_ _ _
    unfold process_metric5
    split
    · rfl
    · simp [h]
  · refine foldl_bucketsStep_skip _ ?_ _ _
    unfold process_metric6
    split
    · rfl
    · simp [h]
  · refine foldl_bucketsStep_skip _ ?_ _ _
    unfold process_metric7
    split
    · rfl
    · simp [h]
  · refine foldl_bucketsStep_skip _ ?_ _ _
    unfold process_metric8
    split
    · rfl
    · simp [h]
  · refine foldl_bucketsStep_skip _ ?_ _ _
    unfold process_metric2
    split
    · rfl
    · simp [h]

/-- Witness for C7: the classifier range conjunct at `"P1"`, and the
exclusion conjuncts at a concrete unclassifiable article. -/
theorem C7_priority_classifier_witness :
    "P1" ∈ validTiers ∧
    analyze_open_new_to_ack_triage_transitions_from_api_data
        [⟨"w7", "open", "garbage", []⟩] =
      analyze_open_new_to_ack_triage_transitions_from_api_data [] :=
  ⟨C7_priority_classifier.1 "P1" "P1" (by decide),
   ((C7_priority_classifier.2.2.2.2.2.2.2.2.2.1 ⟨"w7", "open", "garbage", []⟩ [])
      (by decide)).1⟩

/-- The spec's metric-2 example path:
`open.new(13d19h) -> open.debug(9d3h) -> implemented`. -/
def ts_metric2_example : List Trans :=
  [⟨"open.new", "", "13 Days 19 Hours"⟩,
   ⟨"open.debug", "", "9 Days 3 Hours"⟩,
   ⟨"implemented", "", ""⟩]

def article_metric2_example : Article := ⟨"m1", "open", "P1", ts_metric2_example⟩

/-- The spec's early-stop path: `open.new -> open.debug ->
open.awaiting_submitter -> open.debug -> implemented`. -/
def ts_early_stop_example : List Trans :=
  [⟨"open.new", "", "2 Days"⟩,
   ⟨"open.debug", "", "3 Days"⟩,
   ⟨"open.awaiting_submitter", "", "4 Days"⟩,
   ⟨"open.debug", "", "5 Days"⟩,
   ⟨"implemented", "", ""⟩]

/-- A path whose early-stop status has no end-set occurrence before it. -/
def ts_no_end_before_stop : List Trans :=
  [⟨"open.new", "", ""⟩, ⟨"open.awaiting_submitter", "", ""⟩, ⟨"implemented", "", ""⟩]

/-- C4: metric 2's early-stop truncation and duration summation.  The
example path sums 331 + 219 = 550 hours ≈ 22.9 days and lands in
`'> 15 days'` for P1; the early-stop path truncates the end to the last
end-set index before the early stop, summing only the first leg; when an
early-stop status occurs with no end-set occurrence before it the article
yields no match; and when one exists the end index is replaced by it. -/
theorem C4_metric2_early_stop_and_summation :
    metric2_first_pass ts_metric2_example = (some 0, some 2) ∧
    metric2_early_stop ts_metric2_example 0 2 = none ∧
    metric2_sum_hours ts_metric2_example 0 2 = 550 ∧
    (15 : ℚ) < 550/24 ∧
    process_metric2 article_metric2_example = some ("P1", "> 15 days") ∧
    metric2_first_pass ts_early_stop_example = (some 0, some 4) ∧
    metric2_early_stop ts_early_stop_example 0 4 = some 2 ∧
    metric2_last_end_before ts_early_stop_example 0 2 = some 1 ∧
    metric2_core ts_early_stop_example = some (0, 1, metric2_sum_hours ts_early_stop_example 0 1) ∧
    metric2_sum_hours ts_early_stop_example 0 1 = 48 ∧
    (∀ (ts : List Trans) (ls le i0 : Nat),
      metric2_first_pass ts = (some ls, some le) →
      metric2_early_stop ts ls le = some i0 →
      metric2_last_end_before ts ls i0 = none →
      metric2_core ts = none) ∧
    (∀ (ts : List Trans) (ls le i0 j : Nat),
      metric2_first_pass ts = (some ls, some le) →
      metric2_early_stop ts ls le = some i0 →
      metric2_last_end_before ts ls i0 = some j →
      metric2_core ts = some (ls, j, metric2_sum_hours ts ls j)) := by
  have h331 : parse_time_spent_to_hours "13 Days 19 Hours" = 331 := by
    have h0 : containsSub "< 1 hour" (lowerStr (stripStr "13 Days 19 Hours")) = false := by decide
    have h1 : containsSub "day" (lowerStr (stripStr "13 Days 19 Hours")) = true := by decide
    have h2 : containsSub "hour" (lowerStr (stripStr "13 Days 19 Hours")) = true := by decide
    have h3 : findNumBefore true "day".data (lowerStr (stripStr "13 Days 19 Hours")).data
        = some 13 := by decide
    have h4 : findNumBefore true "hour".data (lowerStr (stripStr "13 Days 19 Hours")).data
        = some 19 := by decide
    simp [parse_time_spent_to_hours, h0, h1, h2, h3, h4]
    norm_num
  have h219 : parse_time_spent_to_hours "9 Days 3 Hours" = 219 := by
    have h0 : containsSub "< 1 hour" (lowerStr (stripStr "9 Days 3 Hours")) = false := by decide
    have h1 : containsSub "day" (lowerStr (stripStr "9 Days 3 Hours")) = true := by decide
    have h2 : containsSub "hour" (lowerStr (stripStr "9 Days 3 Hours")) = true := by decide
    have h3 : findNumBefore true "day".data (lowerStr (stripStr "9 Days 3 Hours")).data
        = some 9 := by decide
    have h4 : findNumBefore true "hour".data (lowerStr (stripStr "9 Days 3 Hours")).data
        = some 3 := by decide
    simp [parse_time_spent_to_hours, h0, h1, h2, h3, h4]
    norm_num
  have h48 : parse_time_spent_to_hours "2 Days" = 48 := by
    have h0 : containsSub "< 1 hour" (lowerStr (stripStr "2 Days")) = false := by decide
    have h1 : containsSub "day" (lowerStr (stripStr "2 Days")) = true := by decide
    have h2 : containsSub "hour" (lowerStr (stripStr "2 Days")) = false := by decide
    have h3 : findNumBefore true "day".data (lowerStr (stripStr "2 Days")).data
        = some 2 := by decide
    simp [parse_time_spent_to_hours, h0, h1, h2, h3]
    norm_num
  have hitems1 : metric2_sum_items ts_metric2_example 0 2
      = ["13 Days 19 Hours", "9 Days 3 Hours"] := by decide
  have hsum1 : metric2_sum_hours ts_metric2_example 0 2 = 550 := by
    rw [metric2_sum_hours, hitems1]
    simp [h331, h219]
    norm_num
  have hitems2 : metric2_sum_items ts_early_stop_example 0 1 = ["2 Days"] := by decide
  have hsum2 : metric2_sum_hours ts_early_stop_example 0 1 = 48 := by
    rw [metric2_sum_hours, hitems2]
    simp [h48]
  have hfp2 : metric2_first_pass ts_early_stop_example = (some 0, some 4) := by decide
  have hes2 : metric2_early_stop ts_early_stop_example 0 4 = some 2 := by decide
  have hlast2 : metric2_last_end_before ts_early_stop_example 0 2 = some 1 := by decide
  refine ⟨by decide, by decide, hsum1, by norm_num, ?_, hfp2, hes2, hlast2,
    by simp [metric2_core, hfp2, hes2, hlast2], hsum2, ?_, ?_⟩
  · have hrej : hasRejectedTransition article_metric2_example.transitions = false := by decide
    have hcl : classify_priority2 article_metric2_example.priority = some "P1" := by decide
    have hne : ¬(article_metric2_example.transitions = []) := by decide
    have hfp : metric2_first_pass ts_metric2_example = (some 0, some 2) := by decide
    have hes : metric2_early_stop ts_metric2_example 0 2 = none := by decide
    have hcore : metric2_core article_metric2_example.transitions = some (0, 2, 550) := by
      show metric2_core ts_metric2_example = some (0, 2, 550)
      simp [metric2_core, hfp, hes, hsum1]
    have hcat : categorize_second_buckets "P1" ((550:ℚ)/24) = "> 15 days" := by
      unfold categorize_second_buckets chain3b
      rw [if_pos (Or.inl rfl), if_neg (by norm_num), if_neg (by norm_num)]
    simp [process_metric2, hrej, hcl, hne, hcore, hcat]
  · intro ts ls le i0 h1 h2 h3
    simp [metric2_core, h1, h2, h3]
  · intro ts ls le i0 j h1 h2 h3
    simp [metric2_core, h1, h2, h3]

/-- Witness for C4: the no-match conjunct applied to the concrete path
`open.new -> open.awaiting_submitter -> implemented`, whose early stop has
no end-set occurrence before it. -/
theorem C4_metric2_early_stop_and_summation_witness :
    metric2_core ts_no_end_before_stop = none :=
  C4_metric2_early_stop_and_summation.2.2.2.2.2.2.2.2.2.2.1
    ts_no_end_before_stop 0 2 1 (by decide) (by decide) (by decide)

/-- An article whose transitions all carry unparsable timestamps. -/
def article_unparsable_dates : Article :=
  ⟨"u1", "open", "P1", [⟨"open.new", "", ""⟩, ⟨"implemented", "", ""⟩]⟩

/-- C5 counterexample: metric 2 does not match on the normalized timeline.
Both events of this article have unparsable timestamps — the normalized
timeline is empty — yet `analyze_start_to_end…` still matches and counts
the article, because it works on the raw transition list in input order
and never parses timestamps. -/
theorem C5_counterexample_metric2_ignores_normalization :
    parse_date "" = none ∧
    sorted_transitions article_unparsable_dates.transitions = [] ∧
    process_metric2 article_unparsable_dates = some ("P1", "< 10 days") := by
  refine ⟨by decide, by decide, ?_⟩
  have hrej : hasRejectedTransition article_unparsable_dates.transitions = false := by decide
  have hcl : classify_priority2 article_unparsable_dates.priority = some "P1" := by decide
  have hne : ¬(article_unparsable_dates.transitions = []) := by decide
  have hfp : metric2_first_pass article_unparsable_dates.transitions
      = (some 0, some 1) := by decide
  have hes : metric2_early_stop article_unparsable_dates.transitions 0 1 = none := by decide
  have hitems : metric2_sum_items article_unparsable_dates.transitions 0 1 = [] := by decide
  have hsum : metric2_sum_hours article_unparsable_dates.transitions 0 1 = 0 := by
    rw [metric2_sum_hours, hitems]; simp
  have hcore : metric2_core article_unparsable_dates.transitions = some (0, 1, 0) := by
    simp [metric2_core, hfp, hes, hsum]
  have hcat : categorize_second_buckets "P1" (0:ℚ) = "< 10 days" := by
    unfold categorize_second_buckets chain3b
    rw [if_pos (Or.inl rfl), if_pos (by norm_num)]
  simp [process_metric2, hrej, hcl, hne, hcore, hcat]

/-- C5 (amended): the normalized timeline used by the date-based metrics
(1, 3, 4, 5, 6, 7, 8) keeps exactly the events whose timestamps parse,
each paired with its parsed timestamp, sorted stably ascending: the result
is pairwise ordered by timestamp, and for every timestamp value the events
carrying it appear in their original relative input order.  (Metric 2, by
the counterexample, matches on the raw unsorted list instead.) -/
theorem C5_normalized_timeline_for_date_metrics :
    (∀ ts : List Trans, (sorted_transitions ts).Pairwise (fun a b => a.1 ≤ b.1)) ∧
    (∀ ts : List Trans, ∀ p ∈ sorted_transitions ts,
      parse_date p.2.updated_date = some p.1) ∧
    (∀ (ts : List Trans) (k : Nat),
      (sorted_transitions ts).filter (fun p => p.1 == k) =
        (ts.filterMap (fun t => (parse_date t.updated_date).map (fun d => (d, t)))).filter
          (fun p => p.1 == k)) := by
  refine ⟨?_, ?_, ?_⟩
  · intro ts
    exact pairwise_sortByDate _
  · intro ts p hp
    have hmem : p ∈ ts.filterMap (fun t => (parse_date t.updated_date).map (fun d => (d, t))) :=
      mem_sortByDate.mp hp
    rw [List.mem_filterMap] at hmem
    obtain ⟨t, _ht, hft⟩ := hmem
    cases hparse : parse_date t.updated_date with
    | none => rw [hparse] at hft; exact absurd hft (by simp)
    | some d =>
      rw [hparse] at hft
      simp only [Option.map_some'] at hft
      injection hft with h2
      rw [← h2]
      exact hparse
  · intro ts k
    exact filter_key_sortByDate k _

/-- Witness for C5: the parsed-timestamp conjunct applied to a concrete
member of a concrete normalized timeline. -/
theorem C5_normalized_timeline_witness :
    parse_date "0001-01-01 00:00:00" = some 0 :=
  C5_normalized_timeline_for_date_metrics.2.1 article_two_days.transitions
    (0, ⟨"open.new", "0001-01-01 00:00:00", ""⟩) (by decide)

end Hsdes
